import Mathlib

/-!
Verification of `javascript/node/selenium-webdriver/edge.js`: the Edge
WebDriver client module.  The module defines `Options` (browser-specific
configuration serialized into a generic capabilities map), `ServiceBuilder`
(locates the driver executable and produces a driver-service descriptor),
a process-wide default-service singleton (`getDefaultService` /
`setDefaultService`), and `Driver` (a facade that resolves a service,
starts it, and overrides `quit` to also kill the service).

JavaScript values stored in capability maps are modelled by the inductive
`Value`; capability maps by association lists; thrown exceptions by
`Except String`; the file-system and port-probe interactions of
`ServiceBuilder` by oracle arguments (the result of `io.findInPath`, the
`fs.existsSync` predicate, the probed free port).  The external
`webdriver.Capabilities` class, the `remote.DriverService` class and the
promise combinator `thenFinally` are not part of this source file; they
are modelled from the spec where marked.
-/

/-- A JavaScript value as it appears in capability maps and option maps.
`vNull` stands for both `null` and `undefined`. -/
inductive Value where
  | vNull : Value
  | vStr : String → Value
  | vInt : Int → Value
  | vBool : Bool → Value
  | vProxy : String → Value
deriving Repr, DecidableEq

/-- JavaScript truthiness of a `Value` (`null`/`undefined`, `""`, `0` and
`false` are falsy; objects such as proxy configs are always truthy). -/
def Value.truthy : Value → Bool
  | Value.vNull => false
  | Value.vStr s => s ≠ ""
  | Value.vInt n => n ≠ 0
  | Value.vBool b => b
  | Value.vProxy _ => true

/-- Modelled from the spec: a capabilities map is a generic key-value
structure supporting `has(key)`, `get(key)` and `set(key, value)`.  It is
represented as an association list without duplicate keys (maintained by
`Capabilities.set`). -/
def Capabilities : Type := List (String × Value)

/-- Modelled from the spec: `get(key)` returns the stored value, or null
when the key is absent. -/
def Capabilities.getV : Capabilities → String → Value
  | [], _ => Value.vNull
  | (k, v) :: rest, key => if k = key then v else Capabilities.getV rest key

/-- Modelled from the spec: `has(key)` reports whether the map holds a
non-null value for the key. -/
def Capabilities.has (c : Capabilities) (key : String) : Bool :=
  Capabilities.getV c key ≠ Value.vNull

/-- Modelled from the spec: `set(key, value)` stores the value under the
key, replacing any previous binding. -/
def Capabilities.set : Capabilities → String → Value → Capabilities
  | [], key, v => [(key, v)]
  | (k, w) :: rest, key, v =>
      if k = key then (key, v) :: rest
      else (k, w) :: Capabilities.set rest key v

/-- Modelled from the spec: `webdriver.Capabilities.edge()` produces a
fresh capabilities map pre-populated with the browser identity marker. -/
def Capabilities.edge : Capabilities := [("browserName", Value.vStr "MicrosoftEdge")]

/-- Modelled from the spec: `webdriver.Capability.PROXY`, the generic key
under which a proxy configuration travels in a capabilities map. -/
def Capability.PROXY : String := "proxy"

/-- `EDGEDRIVER_EXE`: the fixed default driver filename searched for on
the `PATH`. -/
def EDGEDRIVER_EXE : String := "MicrosoftWebDriver.exe"

/-- `CAPABILITY_KEY`: the values of the recognized-option key enum; the
source enum has the single entry `PAGE_LOAD_STRATEGY: 'pageLoadStrategy'`. -/
def CAPABILITY_KEY : List String := ["pageLoadStrategy"]

/-- `Options`: browser-specific settings.  `options_` is the settings
object (empty at construction), `proxy_` the stored proxy configuration
(`null` at construction, hence `vNull`). -/
structure Options where
  options_ : List (String × Value)
  proxy_ : Value
deriving Repr, DecidableEq

/-- `new Options()`. -/
def Options.create : Options := { options_ := [], proxy_ := Value.vNull }

/-- `Options.prototype.setProxy`: stores the proxy configuration and
returns the (updated) self reference. -/
def Options.setProxy (o : Options) (proxy : Value) : Options :=
  { o with proxy_ := proxy }

/-- JavaScript `String.prototype.toLowerCase`, a host-language primitive
modelled character-wise (the stored strategies are ASCII). -/
def jsToLowerCase (s : String) : String := String.mk (s.data.map Char.toLower)

/-- `Options.prototype.setPageLoadStrategy`: stores the lower-cased
strategy under the `pageLoadStrategy` key and returns the (updated) self
reference. -/
def Options.setPageLoadStrategy (o : Options) (pageLoadStrategy : String) : Options :=
  { o with options_ := (Capabilities.set o.options_ "pageLoadStrategy" (Value.vStr (jsToLowerCase pageLoadStrategy))) }

/-- `Options.fromCapabilities`: copies each recognized key present in the
given capabilities into a fresh Options, then absorbs a proxy
configuration if present. -/
def Options.fromCapabilities (capabilities : Capabilities) : Options :=
  let map := CAPABILITY_KEY.foldl
    (fun m key =>
      if Capabilities.has capabilities key then
        Capabilities.set m key (Capabilities.getV capabilities key)
      else m) []
  let options : Options := { options_ := map, proxy_ := Value.vNull }
  if Capabilities.has capabilities Capability.PROXY then
    options.setProxy (Capabilities.getV capabilities Capability.PROXY)
  else options

/-- `Options.prototype.toCapabilities`: merges the stored proxy (when
truthy) and every settings entry onto the given capabilities map, or onto
a fresh default Edge map when none is given. -/
def Options.toCapabilities (o : Options) (opt_capabilities : Option Capabilities) :
    Capabilities :=
  let capabilities := match opt_capabilities with
    | some c => c
    | none => Capabilities.edge
  let capabilities :=
    if Value.truthy o.proxy_ then
      Capabilities.set capabilities Capability.PROXY o.proxy_
    else capabilities
  o.options_.foldl (fun c kv => Capabilities.set c kv.1 kv.2) capabilities

/-- `Options.prototype.serialize`: the wire-format projection, keeping
exactly the non-null entries of the settings object and nothing else. -/
def Options.serialize (o : Options) : List (String × Value) :=
  o.options_.filter (fun kv => kv.2 ≠ Value.vNull)

-- Basic lemmas about the capability-map operations.

theorem Capabilities.getV_set (c : Capabilities) (key k : String) (v : Value) :
    Capabilities.getV (Capabilities.set c key v) k =
      if k = key then v else Capabilities.getV c k := by
  induction c with
  | nil =>
      by_cases h : k = key
      · subst h
        simp [Capabilities.set, Capabilities.getV]
      · have h2 : ¬ key = k := fun hh => h hh.symm
        simp [Capabilities.set, Capabilities.getV, h, h2]
  | cons kv rest ih =>
      obtain ⟨k0, w⟩ := kv
      by_cases h0 : k0 = key
      · subst h0
        by_cases h1 : k0 = k
        · subst h1
          simp [Capabilities.set, Capabilities.getV]
        · have h2 : ¬ k = k0 := fun hh => h1 hh.symm
          simp [Capabilities.set, Capabilities.getV, h1, h2]
      · by_cases h1 : k0 = k
        · subst h1
          simp [Capabilities.set, Capabilities.getV, h0]
        · simp [Capabilities.set, Capabilities.getV, h0, h1, ih]

theorem Capabilities.getV_foldl_set_not_mem (l : List (String × Value))
    (caps : Capabilities) (k : String) (h : k ∉ l.map Prod.fst) :
    Capabilities.getV (l.foldl (fun c kv => Capabilities.set c kv.1 kv.2) caps) k =
      Capabilities.getV caps k := by
  induction l generalizing caps with
  | nil => rfl
  | cons kv rest ih =>
      obtain ⟨k0, v0⟩ := kv
      simp only [List.map_cons, List.mem_cons] at h
      push_neg at h
      rw [List.foldl_cons, ih _ h.2, Capabilities.getV_set]
      simp [h.1]

theorem Capabilities.getV_foldl_set_mem (l : List (String × Value))
    (caps : Capabilities) (k : String) (v : Value)
    (hnd : (l.map Prod.fst).Nodup) (hm : (k, v) ∈ l) :
    Capabilities.getV (l.foldl (fun c kv => Capabilities.set c kv.1 kv.2) caps) k = v := by
  induction l generalizing caps with
  | nil => cases hm
  | cons kv rest ih =>
      obtain ⟨k0, v0⟩ := kv
      simp only [List.map_cons, List.nodup_cons] at hnd
      rcases List.mem_cons.mp hm with hhead | htail
      · obtain ⟨hk, hv⟩ := Prod.mk.injEq .. ▸ hhead
        subst hk hv
        rw [List.foldl_cons,
          Capabilities.getV_foldl_set_not_mem rest _ k hnd.1,
          Capabilities.getV_set]
        simp
      · have hk0 : k ≠ k0 := by
          intro hkk
          subst hkk
          exact hnd.1 (List.mem_map.mpr ⟨(k, v), htail, rfl⟩)
        rw [List.foldl_cons]
        exact ih (Capabilities.set caps k0 v0) hnd.2 htail

/-- `ServiceBuilder` state after successful construction: resolved
executable path, argument list, port (0 meaning "any free port"),
optional base path, stdio configuration (default `'ignore'`) and optional
environment override. -/
structure ServiceBuilder where
  exe_ : String
  args_ : List String
  port_ : Int
  path_ : Option String
  stdio_ : String
  env_ : Option (List (String × String))
deriving Repr, DecidableEq

/-- The descriptor handed to `new remote.DriverService(exe, {...})` by
`ServiceBuilder.build`, with the port promise already resolved. -/
structure DriverServiceConfig where
  exe : String
  loopback : Bool
  path : Option String
  port : Int
  args : List String
  env : Option (List (String × String))
  stdio : String
deriving Repr, DecidableEq

/-- The `ServiceBuilder` constructor.  `opt_exe` is the caller-supplied
path (empty string is falsy, as in JavaScript), `findInPathResult` the
outcome of `io.findInPath(EDGEDRIVER_EXE, true)`, and `existsSync` the
`fs.existsSync` oracle.  Throws when no executable can be resolved or the
resolved path does not exist on disk; no process is spawned. -/
def ServiceBuilder.construct (opt_exe : Option String)
    (findInPathResult : Option String) (existsSync : String → Bool) :
    Except String ServiceBuilder :=
  let exe : Option String := match opt_exe with
    | some s => if s = "" then findInPathResult else some s
    | none => findInPathResult
  match exe with
  | none => Except.error ("The " ++ EDGEDRIVER_EXE ++ " could not be found on the current PATH.")
  | some e =>
    if e = "" then
      Except.error ("The " ++ EDGEDRIVER_EXE ++ " could not be found on the current PATH.")
    else if existsSync e = false then
      Except.error ("File does not exist: " ++ e)
    else
      Except.ok { exe_ := e, args_ := [], port_ := 0, path_ := none,
                  stdio_ := "ignore", env_ := none }

/-- `ServiceBuilder.prototype.setStdio`. -/
def ServiceBuilder.setStdio (b : ServiceBuilder) (config : String) : ServiceBuilder :=
  { b with stdio_ := config }

/-- `ServiceBuilder.prototype.usingPort`: throws for a negative port,
otherwise stores the port and returns the (updated) self reference. -/
def ServiceBuilder.usingPort (b : ServiceBuilder) (port : Int) :
    Except String ServiceBuilder :=
  if port < 0 then
    Except.error ("port must be >= 0: " ++ toString port)
  else
    Except.ok { b with port_ := port }

/-- `ServiceBuilder.prototype.withEnvironment`. -/
def ServiceBuilder.withEnvironment (b : ServiceBuilder) (env : List (String × String)) :
    ServiceBuilder :=
  { b with env_ := some env }

/-- `ServiceBuilder.prototype.build`: resolves the final port (a stored
port of 0 is falsy, so the free-port prober result is used), appends the
`--port=<port>` argument and returns a loopback driver-service
descriptor.  `findFreePort` is the `portprober.findFreePort()` oracle.
No process is started here. -/
def ServiceBuilder.build (b : ServiceBuilder) (findFreePort : Nat) : DriverServiceConfig :=
  let port : Int := if b.port_ = 0 then (findFreePort : Int) else b.port_
  { exe := b.exe_, loopback := true, path := b.path_, port := port,
    args := b.args_ ++ ["--port=" ++ toString port], env := b.env_,
    stdio := b.stdio_ }

/-- Modelled from the spec: a `remote.DriverService` instance.  The class
itself lives outside this file; the spec says it exposes `start()`,
`kill()` and `isRunning()`.  `id` identifies the instance (two services
are the same JavaScript object exactly when their ids are equal),
`config` is the descriptor it was built from, `running` is what
`isRunning()` reports and `killed` records whether `kill()` was ever
invoked. -/
structure Svc where
  id : Nat
  config : DriverServiceConfig
  running : Bool
  killed : Bool
deriving Repr, DecidableEq

/-- Modelled from the spec: `DriverService.start()` leaves the service
running. -/
def Svc.start (s : Svc) : Svc := { s with running := true }

/-- Modelled from the spec: `DriverService.kill()` terminates the
driver-service process. -/
def Svc.kill (s : Svc) : Svc := { s with running := false, killed := true }

/-- The module-level mutable state of `edge.js`: the `defaultService`
variable, plus an allocation counter supplying fresh identities for
services constructed by the module. -/
structure EdgeState where
  defaultService : Option Svc
  nextId : Nat
deriving Repr, DecidableEq

/-- `setDefaultService(service)`: throws when the stored default service
exists and reports itself running; otherwise replaces the stored
reference.  A thrown error leaves the module state untouched. -/
def setDefaultService (service : Svc) (st : EdgeState) : Except String EdgeState :=
  match st.defaultService with
  | some d =>
      if d.running then
        Except.error "The previously configured EdgeDriver service is still running."
      else
        Except.ok { st with defaultService := some service }
  | none => Except.ok { st with defaultService := some service }

/-- Environment oracles consumed when the module constructs a default
`ServiceBuilder` and builds it. -/
structure Env where
  findInPathResult : Option String
  existsSync : String → Bool
  findFreePort : Nat

/-- `getDefaultService()`: when no default service is stored, constructs
one via `new ServiceBuilder().build()` (allocating a fresh instance,
not yet running) and stores it; returns the stored instance. -/
def getDefaultService (env : Env) (st : EdgeState) : Except String (Svc × EdgeState) :=
  match st.defaultService with
  | some d => Except.ok (d, st)
  | none =>
      match ServiceBuilder.construct none env.findInPathResult env.existsSync with
      | Except.error e => Except.error e
      | Except.ok b =>
          let svc : Svc := { id := st.nextId, config := b.build env.findFreePort,
                             running := false, killed := false }
          Except.ok (svc, { defaultService := some svc, nextId := st.nextId + 1 })

/-- The service-resolution and service-start part of the `Driver`
constructor: `var service = opt_service || getDefaultService();` followed
by `service.start()`.  When the default service is resolved, the started
service and the stored default are the same object, so the module state
is updated accordingly.  Returns the service reference the driver closes
over (the one its `quit` override will kill). -/
def Driver.construct (opt_service : Option Svc) (env : Env) (st : EdgeState) :
    Except String (Svc × EdgeState) :=
  match opt_service with
  | some s => Except.ok (s.start, st)
  | none =>
      match getDefaultService env st with
      | Except.error e => Except.error e
      | Except.ok (d, st1) =>
          let started := d.start
          Except.ok (started, { st1 with defaultService := some started })

/-- Observable steps of the teardown sequence of `Driver.quit`. -/
inductive QuitStep where
  | sessionQuit
  | killService
deriving Repr, DecidableEq

/-- The world a quitting driver acts on: the service it resolved at
construction, and a log of the teardown steps performed so far. -/
structure QuitWorld where
  svc : Svc
  log : List QuitStep
deriving Repr, DecidableEq

/-- Modelled from the spec: the inherited session `quit()` (the
`boundQuit` closure).  It closes the remote session — an operation that
may succeed or reject, which the model takes as the `outcome`
parameter — and never touches the driver service. -/
def sessionQuitOp (outcome : Except String Unit) (w : QuitWorld) :
    Except String Unit × QuitWorld :=
  (outcome, { w with log := w.log ++ [QuitStep.sessionQuit] })

/-- Modelled from the spec: `promise.thenFinally(p, fin)` runs the
finalizer after `p` settles, regardless of whether `p` succeeded or
failed, and propagates the original outcome. -/
def thenFinallyOp (p : QuitWorld → Except String Unit × QuitWorld)
    (fin : QuitWorld → QuitWorld) (w : QuitWorld) :
    Except String Unit × QuitWorld :=
  let r := p w
  (r.1, fin r.2)

/-- `service.kill.bind(service)` as a world action. -/
def serviceKillOp (w : QuitWorld) : QuitWorld :=
  { w with svc := Svc.kill w.svc, log := w.log ++ [QuitStep.killService] }

/-- The overridden `Driver.quit`:
`return boundQuit().thenFinally(service.kill.bind(service));`. -/
def Driver.quit (sessionQuitOutcome : Except String Unit) (w : QuitWorld) :
    Except String Unit × QuitWorld :=
  thenFinallyOp (sessionQuitOp sessionQuitOutcome) serviceKillOp w

theorem Capabilities.getV_not_mem (l : List (String × Value)) (k : String)
    (h : k ∉ l.map Prod.fst) : Capabilities.getV l k = Value.vNull := by
  induction l with
  | nil => rfl
  | cons kv rest ih =>
      obtain ⟨k0, v0⟩ := kv
      simp only [List.map_cons, List.mem_cons] at h
      push_neg at h
      have hne : ¬ k0 = k := fun hh => h.1 hh.symm
      simp [Capabilities.getV, hne, ih h.2]

theorem fromCapabilities_options_eq (capabilities : Capabilities) :
    (Options.fromCapabilities capabilities).options_ =
      (if Capabilities.has capabilities "pageLoadStrategy" = true then
        [("pageLoadStrategy", Capabilities.getV capabilities "pageLoadStrategy")]
      else []) := by
  by_cases h : Capabilities.has capabilities "pageLoadStrategy" = true <;>
    by_cases hp : Capabilities.has capabilities Capability.PROXY = true <;>
    simp [Options.fromCapabilities, CAPABILITY_KEY, Options.setProxy,
      Capabilities.set, h, hp]

theorem fromCapabilities_proxy_eq (capabilities : Capabilities) :
    (Options.fromCapabilities capabilities).proxy_ =
      (if Capabilities.has capabilities Capability.PROXY = true then
        Capabilities.getV capabilities Capability.PROXY
      else Value.vNull) := by
  by_cases h : Capabilities.has capabilities "pageLoadStrategy" = true <;>
    by_cases hp : Capabilities.has capabilities Capability.PROXY = true <;>
    simp [Options.fromCapabilities, CAPABILITY_KEY, Options.setProxy,
      Capabilities.set, h, hp]

theorem fromCapabilities_serialize_eq (capabilities : Capabilities) :
    (Options.fromCapabilities capabilities).serialize =
      (if Capabilities.has capabilities "pageLoadStrategy" = true then
        [("pageLoadStrategy", Capabilities.getV capabilities "pageLoadStrategy")]
      else []) := by
  have hopts := fromCapabilities_options_eq capabilities
  by_cases h : Capabilities.has capabilities "pageLoadStrategy" = true
  · have hv : Capabilities.getV capabilities "pageLoadStrategy" ≠ Value.vNull := by
      simpa [Capabilities.has] using h
    simp [Options.serialize, hopts, h, List.filter, hv]
  · simp [Options.serialize, hopts, h, List.filter]

/-- Claim C4: for every capabilities map, `Options.fromCapabilities`
produces an Options whose `serialize()` holds exactly the recognized-key
content of the input (here the single recognized key `pageLoadStrategy`)
with the same values — no extra keys, no missing keys — and every
unrecognized key of the input is dropped without error. -/
theorem fromCapabilities_serialize_exact (capabilities : Capabilities) :
    (Options.fromCapabilities capabilities).serialize =
      (if Capabilities.has capabilities "pageLoadStrategy" = true then
        [("pageLoadStrategy", Capabilities.getV capabilities "pageLoadStrategy")]
      else []) :=
  fromCapabilities_serialize_eq capabilities

/-- Claim C8: `setPageLoadStrategy` stores the lower-cased form of its
argument under the `pageLoadStrategy` key of the settings map, leaves the
proxy untouched and returns the updated self; in particular
`setPageLoadStrategy("EAGER")` followed by `serialize()` yields
`pageLoadStrategy: "eager"`. -/
theorem setPageLoadStrategy_spec (o : Options) (s : String) :
    (o.setPageLoadStrategy s).options_ =
      Capabilities.set o.options_ "pageLoadStrategy" (Value.vStr (jsToLowerCase s)) ∧
    Capabilities.getV (o.setPageLoadStrategy s).options_ "pageLoadStrategy" =
      Value.vStr (jsToLowerCase s) ∧
    (o.setPageLoadStrategy s).proxy_ = o.proxy_ ∧
    (Options.create.setPageLoadStrategy "EAGER").serialize =
      [("pageLoadStrategy", Value.vStr "eager")] := by
  refine ⟨rfl, ?_, rfl, by decide⟩
  rw [Options.setPageLoadStrategy]
  simp [Capabilities.getV_set]

/-- Claim C9: `serialize()` returns a map holding exactly the entries of
the internal settings map whose values are non-null, and never contains
the proxy configuration, whether the proxy was stored via `setProxy` or
absorbed by `fromCapabilities`. -/
theorem serialize_exact_nonnull (o : Options) (k : String) (v p : Value)
    (capabilities : Capabilities) :
    ((k, v) ∈ o.serialize ↔ ((k, v) ∈ o.options_ ∧ v ≠ Value.vNull)) ∧
    ((o.setProxy p).serialize = o.serialize) ∧
    ((Options.fromCapabilities capabilities).serialize.map Prod.fst ⊆
      ["pageLoadStrategy"]) := by
  refine ⟨by simp [Options.serialize, List.mem_filter], rfl, ?_⟩
  rw [fromCapabilities_serialize_eq capabilities]
  by_cases h : Capabilities.has capabilities "pageLoadStrategy" = true <;> simp [h]

/-- State-threaded versions of the capability-map reads, making explicit
that `has` and `get` return the map unchanged. -/
def Capabilities.hasRun (c : Capabilities) (key : String) : Bool × Capabilities :=
  (Capabilities.has c key, c)

/-- State-threaded `get`. -/
def Capabilities.getRun (c : Capabilities) (key : String) : Value × Capabilities :=
  (Capabilities.getV c key, c)

/-- `Options.fromCapabilities` with the capabilities object threaded
through every `has`/`get` call it performs, mirroring the source
statement by statement; the second component is the capabilities object
as the call leaves it. -/
def Options.fromCapabilitiesRun (capabilities : Capabilities) :
    Options × Capabilities :=
  let step := fun (acc : (List (String × Value)) × Capabilities) key =>
    let h := Capabilities.hasRun acc.2 key
    if h.1 then
      let g := Capabilities.getRun h.2 key
      (Capabilities.set acc.1 key g.1, g.2)
    else (acc.1, h.2)
  let r := CAPABILITY_KEY.foldl step ([], capabilities)
  let options : Options := { options_ := r.1, proxy_ := Value.vNull }
  let hp := Capabilities.hasRun r.2 Capability.PROXY
  if hp.1 then
    let gp := Capabilities.getRun hp.2 Capability.PROXY
    (options.setProxy gp.1, gp.2)
  else (options, hp.2)

/-- Claim C10: `Options.fromCapabilities` never modifies the capabilities
map it is given — it only performs `has`/`get` reads, so the map after
the call is the map that went in, and the computed Options agrees with
the direct definition. -/
theorem fromCapabilities_preserves_input (capabilities : Capabilities) :
    (Options.fromCapabilitiesRun capabilities).2 = capabilities ∧
    (Options.fromCapabilitiesRun capabilities).1 =
      Options.fromCapabilities capabilities := by
  by_cases h : Capabilities.has capabilities "pageLoadStrategy" = true <;>
    by_cases hp : Capabilities.has capabilities Capability.PROXY = true <;>
    simp [Options.fromCapabilitiesRun, Options.fromCapabilities, CAPABILITY_KEY,
      Capabilities.hasRun, Capabilities.getRun, Options.setProxy, h, hp]

/-- Claim C7: `toCapabilities(base)` sets the proxy capability (when a
truthy proxy is stored) and every stored settings entry on the given base
map — or on a fresh default Edge map when no base is given — and leaves
every other key of the base unchanged; in particular `toCapabilities()`
on an empty Options over the fresh default map returns exactly that map. -/
theorem toCapabilities_frame (o : Options) (base : Capabilities)
    (hnd : (o.options_.map Prod.fst).Nodup) :
    (∀ k v, (k, v) ∈ o.options_ →
        Capabilities.getV (o.toCapabilities (some base)) k = v) ∧
    (Value.truthy o.proxy_ = true → Capability.PROXY ∉ o.options_.map Prod.fst →
        Capabilities.getV (o.toCapabilities (some base)) Capability.PROXY = o.proxy_) ∧
    (∀ k, k ∉ o.options_.map Prod.fst → k ≠ Capability.PROXY →
        Capabilities.getV (o.toCapabilities (some base)) k = Capabilities.getV base k) ∧
    (∀ k, k ∉ o.options_.map Prod.fst → Value.truthy o.proxy_ = false →
        Capabilities.getV (o.toCapabilities (some base)) k = Capabilities.getV base k) ∧
    (Options.create.toCapabilities none = Capabilities.edge) := by
  refine ⟨?_, ?_, ?_, ?_, rfl⟩
  · intro k v hm
    exact Capabilities.getV_foldl_set_mem o.options_ _ k v hnd hm
  · intro hp hnm
    rw [Options.toCapabilities]
    simp only [hp, if_true]
    rw [Capabilities.getV_foldl_set_not_mem o.options_ _ _ hnm,
      Capabilities.getV_set]
    simp
  · intro k hnm hne
    by_cases hp : Value.truthy o.proxy_ = true
    · rw [Options.toCapabilities]
      simp only [hp, if_true]
      rw [Capabilities.getV_foldl_set_not_mem o.options_ _ _ hnm,
        Capabilities.getV_set]
      simp [hne]
    · have hp2 : Value.truthy o.proxy_ = false := by
        cases hpt : Value.truthy o.proxy_
        · rfl
        · exact absurd hpt hp
      rw [Options.toCapabilities]
      simp only [hp2, Bool.false_eq_true, if_false]
      exact Capabilities.getV_foldl_set_not_mem o.options_ _ _ hnm
  · intro k hnm hp
    rw [Options.toCapabilities]
    simp only [hp, Bool.false_eq_true, if_false]
    exact Capabilities.getV_foldl_set_not_mem o.options_ _ _ hnm

/-- Witness for claim C7 at a concrete Options (page-load strategy
`"eager"`, proxy stored) over the fresh Edge map: the proxy key of the
result holds the stored proxy. -/
theorem toCapabilities_frame_witness :
    Capabilities.getV
      (((Options.create.setPageLoadStrategy "EAGER").setProxy
          (Value.vProxy "http=localhost:8080")).toCapabilities
        (some Capabilities.edge)) Capability.PROXY =
      Value.vProxy "http=localhost:8080" := by
  have h := (toCapabilities_frame
    ((Options.create.setPageLoadStrategy "EAGER").setProxy
      (Value.vProxy "http=localhost:8080")) Capabilities.edge (by decide)).2.1
  exact h (by decide) (by decide)

/-- Claim C1: `Driver.quit` first invokes the inherited session quit and
then invokes `kill()` on the service resolved at construction, and the
kill is performed whatever the session-quit outcome was — a rejected
session quit does not skip service termination; the session-quit outcome
is what the call reports. -/
theorem driver_quit_kills_service_regardless (outcome : Except String Unit)
    (w : QuitWorld) :
    (Driver.quit outcome w).2.log =
        w.log ++ [QuitStep.sessionQuit, QuitStep.killService] ∧
    (Driver.quit outcome w).2.svc.killed = true ∧
    (Driver.quit outcome w).1 = outcome := by
  refine ⟨?_, rfl, rfl⟩
  simp [Driver.quit, thenFinallyOp, sessionQuitOp, serviceKillOp]

/-- Claim C2: `setDefaultService` throws exactly when a default service
is stored and reports itself running; in every other case it replaces the
stored reference by the argument, changing nothing else of the module
state and performing no teardown of the old instance. -/
theorem setDefaultService_spec (service : Svc) (st : EdgeState) :
    ((∃ msg, setDefaultService service st = Except.error msg) ↔
      (∃ d, st.defaultService = some d ∧ d.running = true)) ∧
    (∀ d, st.defaultService = some d → d.running = false →
      setDefaultService service st =
        Except.ok { st with defaultService := some service }) ∧
    (st.defaultService = none →
      setDefaultService service st =
        Except.ok { st with defaultService := some service }) := by
  refine ⟨⟨?_, ?_⟩, ?_, ?_⟩
  · rintro ⟨msg, hmsg⟩
    cases hd : st.defaultService with
    | none => rw [setDefaultService, hd] at hmsg; cases hmsg
    | some d =>
        refine ⟨d, rfl, ?_⟩
        cases hr : d.running
        · simp only [setDefaultService, hd, hr, Bool.false_eq_true,
            if_false] at hmsg
          cases hmsg
        · rfl
  · rintro ⟨d, hd, hr⟩
    simp only [setDefaultService, hd, hr, if_true]
    exact ⟨_, rfl⟩
  · intro d hd hr
    simp only [setDefaultService, hd, hr, Bool.false_eq_true, if_false]
  · intro hd
    rw [setDefaultService, hd]

/-- Witness for claim C2: with no default service stored, the call
replaces the stored reference. -/
theorem setDefaultService_spec_witness :
    setDefaultService
        { id := 0,
          config := { exe := "MicrosoftWebDriver.exe", loopback := true,
                      path := none, port := 17556, args := ["--port=17556"],
                      env := none, stdio := "ignore" },
          running := false, killed := false }
        { defaultService := none, nextId := 0 } =
      Except.ok
        { defaultService := some
            { id := 0,
              config := { exe := "MicrosoftWebDriver.exe", loopback := true,
                          path := none, port := 17556, args := ["--port=17556"],
                          env := none, stdio := "ignore" },
              running := false, killed := false },
          nextId := 0 } :=
  (setDefaultService_spec _ _).2.2 rfl

/-- Claim C3: `getDefaultService()` returns the stored instance when one
exists, constructs-and-stores one via a default `ServiceBuilder().build()`
otherwise, and is idempotent once set: a call's result state answers the
next call with the very same instance; consequently two Drivers
constructed without an explicit service resolve the same default service
(exactly one allocation across both constructions). -/
theorem getDefaultService_idempotent (env : Env) (st : EdgeState) :
    (∀ d, st.defaultService = some d → getDefaultService env st = Except.ok (d, st)) ∧
    (∀ d st1, getDefaultService env st = Except.ok (d, st1) →
      st1.defaultService = some d ∧ getDefaultService env st1 = Except.ok (d, st1)) ∧
    (∀ b, st.defaultService = none →
      ServiceBuilder.construct none env.findInPathResult env.existsSync = Except.ok b →
      getDefaultService env st = Except.ok
        ({ id := st.nextId, config := b.build env.findFreePort,
           running := false, killed := false },
         { defaultService := some
             { id := st.nextId, config := b.build env.findFreePort,
               running := false, killed := false },
           nextId := st.nextId + 1 })) ∧
    (∀ s1 st1 s2 st2, st.defaultService = none →
      Driver.construct none env st = Except.ok (s1, st1) →
      Driver.construct none env st1 = Except.ok (s2, st2) →
      s1.id = s2.id ∧ st2.nextId = st.nextId + 1) := by
  refine ⟨?_, ?_, ?_, ?_⟩
  · intro d hd
    simp only [getDefaultService, hd]
  · intro d st1 h
    cases hd : st.defaultService with
    | some d0 =>
        simp only [getDefaultService, hd, Except.ok.injEq, Prod.mk.injEq] at h
        obtain ⟨h1, h2⟩ := h
        subst h1
        subst h2
        exact ⟨hd, by simp only [getDefaultService, hd]⟩
    | none =>
        cases hc : ServiceBuilder.construct none env.findInPathResult env.existsSync with
        | error e =>
            simp only [getDefaultService, hd, hc] at h
            cases h
        | ok b =>
            simp only [getDefaultService, hd, hc, Except.ok.injEq,
              Prod.mk.injEq] at h
            obtain ⟨h1, h2⟩ := h
            subst h1
            subst h2
            exact ⟨rfl, by simp only [getDefaultService]⟩
  · intro b hd hc
    simp only [getDefaultService, hd, hc]
  · intro s1 st1 s2 st2 hd h1 h2
    cases hc : ServiceBuilder.construct none env.findInPathResult env.existsSync with
    | error e =>
        simp only [Driver.construct, getDefaultService, hd, hc] at h1
        cases h1
    | ok b =>
        simp only [Driver.construct, getDefaultService, hd, hc, Except.ok.injEq,
          Prod.mk.injEq] at h1
        obtain ⟨hs1, hst1⟩ := h1
        subst hs1
        subst hst1
        simp only [Driver.construct, getDefaultService, Except.ok.injEq,
          Prod.mk.injEq] at h2
        obtain ⟨hs2, hst2⟩ := h2
        subst hs2
        subst hst2
        exact ⟨rfl, rfl⟩

/-- A concrete oracle environment: the driver executable is found on the
search path, every path exists on disk, and the port prober hands out
port 17556. -/
def envDefault : Env :=
  { findInPathResult := some "MicrosoftWebDriver.exe",
    existsSync := fun _ => true, findFreePort := 17556 }

/-- The default service allocated (and started) by the first Driver
construction under `envDefault` from a fresh module state. -/
def svc1W : Svc :=
  { id := 0,
    config := { exe := "MicrosoftWebDriver.exe", loopback := true,
                path := none, port := 17556, args := ["--port=17556"],
                env := none, stdio := "ignore" },
    running := true, killed := false }

/-- Module state after the first Driver construction under `envDefault`. -/
def st1W : EdgeState := { defaultService := some svc1W, nextId := 1 }

/-- Module state after the second Driver construction under `envDefault`. -/
def st2W : EdgeState := { defaultService := some (Svc.start svc1W), nextId := 1 }

/-- Witness for claim C3: two concrete Driver constructions without an
explicit service share the default service and allocate it once. -/
theorem getDefaultService_idempotent_witness :
    svc1W.id = (Svc.start svc1W).id ∧ st2W.nextId = (0 : Nat) + 1 :=
  (getDefaultService_idempotent envDefault
      { defaultService := none, nextId := 0 }).2.2.2
    svc1W st1W (Svc.start svc1W) st2W rfl rfl rfl

/-- Claim C5: the `ServiceBuilder` constructor throws when no executable
path is supplied and the default driver filename is not located on the
execution path, and when the resolved path does not exist on disk; when
it returns normally the builder's executable path is an existing file
(and the builder starts with no arguments, port 0 and stdio `'ignore'`).
Construction performs no spawn: it only validates and stores. -/
theorem serviceBuilder_construct_spec (opt_exe : Option String)
    (fip : Option String) (es : String → Bool) :
    ((opt_exe = none ∨ opt_exe = some "") → (fip = none ∨ fip = some "") →
      ∃ msg, ServiceBuilder.construct opt_exe fip es = Except.error msg) ∧
    (∀ e, opt_exe = none → fip = some e → e ≠ "" → es e = false →
      ServiceBuilder.construct opt_exe fip es =
        Except.error ("File does not exist: " ++ e)) ∧
    (∀ e, opt_exe = some e → e ≠ "" → es e = false →
      ServiceBuilder.construct opt_exe fip es =
        Except.error ("File does not exist: " ++ e)) ∧
    (∀ b, ServiceBuilder.construct opt_exe fip es = Except.ok b →
      es b.exe_ = true ∧ b.args_ = [] ∧ b.port_ = 0 ∧ b.stdio_ = "ignore") := by
  refine ⟨?_, ?_, ?_, ?_⟩
  · rintro (rfl | rfl) (rfl | rfl) <;> exact ⟨_, rfl⟩
  · rintro e rfl rfl hne hes
    simp [ServiceBuilder.construct, hne, hes]
  · rintro e rfl hne hes
    simp [ServiceBuilder.construct, hne, hes]
  · intro b hb
    simp only [ServiceBuilder.construct] at hb
    rcases hE : (match opt_exe with
        | some s => if s = "" then fip else some s
        | none => fip) with _ | e
    · rw [hE] at hb
      cases hb
    · rw [hE] at hb
      by_cases h1 : e = ""
      · simp [h1] at hb
      · by_cases h2 : es e = false
        · simp [h1, h2] at hb
        · have h3 : es e = true := by
            cases hst : es e
            · exact absurd hst h2
            · rfl
          simp [h1, h3] at hb
          subst hb
          exact ⟨h3, rfl, rfl, rfl⟩

/-- Witness for claim C5: with no supplied path and nothing found on the
execution path, construction throws. -/
theorem serviceBuilder_construct_spec_witness :
    ∃ msg, ServiceBuilder.construct none none (fun _ => true) =
      Except.error msg :=
  (serviceBuilder_construct_spec none none (fun _ => true)).1
    (Or.inl rfl) (Or.inl rfl)

/-- Claim C6: `usingPort(port)` throws for every negative port (leaving
the builder as it was — the model returns no updated builder) and
otherwise stores the port on the returned self; a stored port of 0 makes
`build()` take the free port obtained from the port prober, while a
non-zero stored port is used as is. -/
theorem usingPort_spec (b : ServiceBuilder) (port : Int) (ffp : Nat) :
    (port < 0 → ServiceBuilder.usingPort b port =
      Except.error ("port must be >= 0: " ++ toString port)) ∧
    (0 ≤ port → ServiceBuilder.usingPort b port =
      Except.ok { b with port_ := port }) ∧
    (b.port_ = 0 → (b.build ffp).port = (ffp : Int)) ∧
    (b.port_ ≠ 0 → (b.build ffp).port = b.port_) := by
  refine ⟨?_, ?_, ?_, ?_⟩
  · intro h
    rw [ServiceBuilder.usingPort, if_pos h]
  · intro h
    rw [ServiceBuilder.usingPort, if_neg (not_lt.mpr h)]
  · intro h
    simp [ServiceBuilder.build, h]
  · intro h
    simp [ServiceBuilder.build, h]

/-- A builder as the `ServiceBuilder` constructor leaves it when the
executable is first on the search path. -/
def sampleBuilder : ServiceBuilder :=
  { exe_ := "MicrosoftWebDriver.exe", args_ := [], port_ := 0,
    path_ := none, stdio_ := "ignore", env_ := none }

/-- Witness for claim C6: `usingPort(-1)` throws. -/
theorem usingPort_spec_witness :
    ServiceBuilder.usingPort sampleBuilder (-1) =
      Except.error ("port must be >= 0: " ++ toString (-1 : Int)) :=
  (usingPort_spec sampleBuilder (-1) 0).1 (by decide)
